import Mathlib

/-!
Shallow embedding of `pull-request.py` (pull-request reconciliation script).

The script reads configuration from environment variables, looks up the open
pull requests of a repository, and either updates a matched existing pull
request or creates a new one, then attaches assignees and reviewers and
exports result values.

Modelling choices:
* Environment variables are `Option String` (`none` = unset); Python string
  truthiness (`if value:`) is the predicate `truthy`.
* Remote HTTP traffic is modelled by an `Oracle` giving the response each
  call site receives, and a run records the sequence of remote calls and
  the exported key/value pairs in a `RunState`.  `sys.exit` is an
  `Except.error` result that preserves the state accumulated so far.
* A JSON pull-request object is an `Entry`; `Entry.headRef` models the
  defaulted lookup `entry.get("head", {}).get("ref", "")`, so an absent
  head ref is the empty string, exactly as the code observes it.
* `values.replace("\x22", "").replace("\x27", "")` (replacement by the
  empty string) is modelled as removing those characters.
* Status codes are `Nat`.  File-system plumbing (`check_events_json`,
  writing to `GITHUB_ENV` / `GITHUB_OUTPUT` files) is out of scope; an
  export is recorded as a key/value pair.
-/

/-- Python string-option truthiness: `if value:` is true exactly for a set,
non-empty string. -/
def truthy : Option String → Bool
  | none => false
  | some s => !s.isEmpty

/-- Model of `get_envar`, line 12: return the value of a required environment
variable, exiting (`Except.error`) when it is unset or falsy (empty). -/
def get_envar (name : String) (value : Option String) : Except String String :=
  match value with
  | none =>
      Except.error (name ++ " is required for surangajayalath/pull-request-slack-notifier-modified@v3")
  | some v =>
      if v.isEmpty then
        Except.error (name ++ " is required for surangajayalath/pull-request-slack-notifier-modified@v3")
      else
        Except.ok v

/-- The quote stripping of `parse_into_list`, line 62:
`values.replace("\x22", "").replace("\x27", "")` — replacing by the empty
string removes every double- and single-quote character. -/
def strip_quotes (s : String) : String :=
  String.mk (s.data.filter (fun c => !(c == '"' || c == '\x27')))

/-- Python `str.split(sep)` for a one-character separator, keeping empty
pieces (so two adjacent separators yield an empty piece), as a structural
recursion over the characters. -/
def split_on_pred (p : Char → Bool) : List Char → List (List Char)
  | [] => [[]]
  | c :: cs =>
      match split_on_pred p cs with
      | [] => [[c]]
      | r :: rs => if p c then [] :: r :: rs else (c :: r) :: rs

/-- The whitespace characters Python `str.strip()` removes. -/
def is_py_space (c : Char) : Bool :=
  c == ' ' || c == '\t' || c == '\n' || c == '\x0d' || c == '\x0b' || c == '\x0c'

/-- Python `str.strip()`: drop leading and trailing whitespace. -/
def py_strip (l : List Char) : List Char :=
  ((l.dropWhile is_py_space).reverse.dropWhile is_py_space).reverse

/-- Python `str.lower()` on one (ASCII) character. -/
def py_lower_char (c : Char) : Char :=
  if 'A' ≤ c && c ≤ 'Z' then Char.ofNat (c.toNat + 32) else c

/-- Python `str.lower()`. -/
def py_lower (s : String) : String :=
  String.mk (s.data.map py_lower_char)

/-- Model of `parse_into_list`, line 55: strip quotes, return `[]` for a falsy
(unset or empty) value, else split on single spaces (`values.split(" ")`)
and strip surrounding whitespace from each piece. -/
def parse_into_list (values : Option String) : List String :=
  match values with
  | none => []
  | some s =>
      let v := if s.isEmpty then s else strip_quotes s
      if v.isEmpty then []
      else (split_on_pred (fun c => c == ' ') v.data).map (fun x => String.mk (py_strip x))

/-- Modelled from the spec: the spec describes `parseList` as "splitting on
whitespace after stripping any quote characters", i.e. whitespace-delimited
tokens (no empty tokens, any whitespace character is a delimiter — Python
`str.split()` with no argument).  Used only to compare the spec's
description with `parse_into_list`. -/
def parse_list_spec (values : Option String) : List String :=
  match values with
  | none => []
  | some s =>
      ((split_on_pred is_py_space (strip_quotes s).data).filter
        (fun t => !t.isEmpty)).map String.mk

/-- The draft flag, line 289:
`os.environ.get("PULL_REQUEST_DRAFT", "").lower() in ["true", "1", "yes"]`. -/
def draft_flag (v : Option String) : Bool :=
  ["true", "1", "yes"].contains (py_lower (v.getD ""))

/-- Python `state or "open"` (line 133): `None` and the empty string fall
back to the default. -/
def pyOrStr (s : Option String) (d : String) : String :=
  match s with
  | none => d
  | some v => if v.isEmpty then d else v

/-- A pull-request JSON object as the script reads it: its number, the
defaulted head ref `entry.get("head", {}).get("ref", "")`, and its
`html_url`. -/
structure Entry where
  number : Option Nat
  headRef : String
  htmlUrl : Option String
deriving Repr, DecidableEq

/-- A response to a create/update/attach call: status code and (parsed)
JSON body. -/
structure Response where
  status : Nat
  body : Entry
deriving Repr, DecidableEq

/-- A response to the pull-request listing call: status code and the list
of pull-request objects in the body. -/
structure ListResp where
  status : Nat
  body : List Entry
deriving Repr, DecidableEq

/-- A response to the repository-metadata call: status code and the
`default_branch` field of the body. -/
structure RepoResp where
  status : Nat
  default_branch : String
deriving Repr, DecidableEq

/-- The responses the remote service returns at each call site of one run. -/
structure Oracle where
  list_no_auth : ListResp
  list_auth : ListResp
  create_resp : Response
  update_resp : Response
  assignees_resp : Response
  reviewers_resp : Response
  team_reviewers_resp : Response
  repo_no_auth : RepoResp
  repo_auth : RepoResp
deriving Repr, DecidableEq

/-- The environment variables `main` reads (beyond the always-required
strings); `PULL_REQUEST_SOURCE` is required, hence a plain string. -/
structure Env where
  PASS_ON_ERROR : Option String
  PULL_REQUEST_DRAFT : Option String
  PULL_REQUEST_UPDATE : Option String
  ASSIGNEES : Option String
  REVIEWERS : Option String
  TEAM_REVIEWERS : Option String
  PULL_REQUEST_SOURCE : String
deriving Repr, DecidableEq

/-- One remote HTTP call, with the arguments the claims inspect. -/
inductive Call where
  | listPulls (withAuth : Bool)
  | createPull (is_draft : Bool)
  | updatePull (number : Option Nat) (state : String)
  | addAssigneesCall (number : Option Nat) (assignees : List String)
  | addReviewersCall (number : Option Nat) (reviewers : List String)
  | addTeamReviewersCall (number : Option Nat) (teams : List String)
  | getRepo (withAuth : Bool)
deriving Repr, DecidableEq

/-- A value written by `set_env_and_output`: Python writes ints, strings,
or `None`. -/
inductive EVal where
  | num (n : Nat)
  | str (s : String)
  | null
deriving Repr, DecidableEq

/-- Conversion to `EVal` of an optional number (absent field prints as `None`). -/
def EVal.ofNum : Option Nat → EVal
  | some n => EVal.num n
  | none => EVal.null

/-- Conversion to `EVal` of an optional string (absent field prints as `None`). -/
def EVal.ofStr : Option String → EVal
  | some v => EVal.str v
  | none => EVal.null

/-- Observable state of one run: remote calls made and values exported,
in order. -/
structure RunState where
  calls : List Call
  exports : List (String × EVal)
deriving Repr, DecidableEq

/-- The script's effect monad: state passing with an early-exit result;
`sys.exit` keeps the state accumulated so far. -/
def M (α : Type) : Type := RunState → Except String α × RunState

/-- Monadic return for `M`. -/
def M.pure {α : Type} (a : α) : M α := fun s => (Except.ok a, s)

/-- Monadic bind for `M`: an early exit short-circuits but keeps the state. -/
def M.bind {α β : Type} (x : M α) (f : α → M β) : M β := fun s =>
  match x s with
  | (Except.ok a, s1) => f a s1
  | (Except.error msg, s1) => (Except.error msg, s1)

instance : Monad M where
  pure := M.pure
  bind := M.bind

/-- Model of `sys.exit(msg)`. -/
def sys_exit {α : Type} (msg : String) : M α := fun s => (Except.error msg, s)

/-- Record one remote HTTP call (a `requests.get/post/patch`). -/
def remote_call (c : Call) : M Unit :=
  fun s => (Except.ok (), { s with calls := s.calls ++ [c] })

/-- Model of `set_env_and_output`, line 68: record an exported key/value pair. -/
def set_env_and_output (name : String) (value : EVal) : M Unit :=
  fun s => (Except.ok (), { s with exports := s.exports ++ [(name, value)] })

@[simp] theorem M.run_pure {α : Type} (a : α) (s : RunState) :
    (pure a : M α) s = (Except.ok a, s) := rfl

@[simp] theorem M.run_bind {α β : Type} (x : M α) (f : α → M β) (s : RunState) :
    (x >>= f) s =
      match x s with
      | (Except.ok a, s1) => f a s1
      | (Except.error msg, s1) => (Except.error msg, s1) := rfl

/-- Model of `abort_if_fail`, line 35: tolerate the failure when `PASS_ON_ERROR` is
truthy, otherwise exit. -/
def abort_if_fail (env : Env) (reason : String) : M Unit :=
  if truthy env.PASS_ON_ERROR then pure () else sys_exit reason

/-- Model of `open_pull_request`, line 86: post the create call; a status other than
201 aborts (or is tolerated); the response is returned either way. -/
def open_pull_request (env : Env) (o : Oracle) (is_draft : Bool) : M Response := do
  remote_call (Call.createPull is_draft)
  let response := o.create_resp
  if response.status ≠ 201 then
    abort_if_fail env "Unable to create pull request"
  pure response

/-- Model of `update_pull_request`, line 117: patch the matched pull request with
`state or "open"`; a status other than 200 aborts (or is tolerated). -/
def update_pull_request (env : Env) (o : Oracle) (entry : Entry)
    (state : Option String) : M Response := do
  remote_call (Call.updatePull entry.number (pyOrStr state "open"))
  let response := o.update_resp
  if response.status ≠ 200 then
    abort_if_fail env "Unable to update pull request"
  pure response

/-- The return-code normalization of `set_pull_request_groups`, line 152. -/
def pull_request_return_code (status : Nat) : Nat :=
  if status == 201 then 0 else status

/-- Model of `set_pull_request_groups`, line 145: export number, return code and URL
taken from a create/update response. -/
def set_pull_request_groups (response : Response) : M Unit := do
  set_env_and_output "PULL_REQUEST_NUMBER" (EVal.ofNum response.body.number)
  set_env_and_output "PULL_REQUEST_RETURN_CODE"
    (EVal.num (pull_request_return_code response.status))
  set_env_and_output "PULL_REQUEST_URL" (EVal.ofStr response.body.htmlUrl)

/-- Model of `list_pull_requests`, line 167: unauthenticated query first, one
authenticated retry on 401/404, abort (or tolerate) anything not 200. -/
def list_pull_requests (env : Env) (o : Oracle) : M (List Entry) := do
  remote_call (Call.listPulls false)
  let response := o.list_no_auth
  let response ←
    if [401, 404].contains response.status then do
      remote_call (Call.listPulls true)
      pure o.list_auth
    else
      pure response
  if response.status ≠ 200 then
    abort_if_fail env "Unable to retrieve information about pull requests"
  pure response.body

/-- Model of `add_assignees`, line 188: parse the assignee string, post once, abort
(or tolerate) on non-201, then export the assignees return code. -/
def add_assignees (env : Env) (o : Oracle) (entry : Entry)
    (assignees : Option String) : M Unit := do
  let assignees := parse_into_list assignees
  let number := entry.number
  remote_call (Call.addAssigneesCall number assignees)
  let response := o.assignees_resp
  if response.status ≠ 201 then
    abort_if_fail env "Unable to create assignees"
  set_env_and_output "ASSIGNEES_RETURN_CODE"
    (EVal.num (if response.status == 201 then 0 else response.status))

/-- Model of `find_pull_request`, line 217: first entry of the listing whose
(defaulted) head ref equals the source branch, else none. -/
def find_pull_request (listing : List Entry) (source : String) : Option Entry :=
  List.find? (fun entry => entry.headRef == source) listing

/-- Model of `find_default_branch`, line 231: unauthenticated query first, one
authenticated retry on 401/404, abort (or tolerate) anything not 200, then
read `default_branch`. -/
def find_default_branch (env : Env) (o : Oracle) : M String := do
  remote_call (Call.getRepo false)
  let response := o.repo_no_auth
  let response ←
    if [401, 404].contains response.status then do
      remote_call (Call.getRepo true)
      pure o.repo_auth
    else
      pure response
  if response.status ≠ 200 then
    abort_if_fail env "Unable to retrieve default branch"
  pure response.default_branch

/-- Model of `add_reviewers`, line 246: always post the (possibly empty) reviewer
list; post the team-reviewer list only when it is non-empty; each post
aborts (or is tolerated) on non-201. -/
def add_reviewers (env : Env) (o : Oracle) (entry : Entry)
    (reviewers team_reviewers : Option String) : M Unit := do
  let number := entry.number
  let reviewers := parse_into_list reviewers
  let team_reviewers := parse_into_list team_reviewers
  remote_call (Call.addReviewersCall number reviewers)
  let response := o.reviewers_resp
  if response.status ≠ 201 then
    abort_if_fail env "Unable to add reviewers"
  if team_reviewers ≠ [] then do
    remote_call (Call.addTeamReviewersCall number team_reviewers)
    let response := o.team_reviewers_resp
    if response.status ≠ 201 then
      abort_if_fail env "Unable to add team reviewers"

/-- Model of `main` (renamed: `main` is reserved in Lean), line 280, from the existing-pull-request check on (the
environment reads, URL setup and events-file check precede any remote
call and carry no modelled observable). -/
def main_reconcile (env : Env) (o : Oracle) : M Unit := do
  let existing_pr ← list_pull_requests env o
  match find_pull_request existing_pr env.PULL_REQUEST_SOURCE,
      truthy env.PULL_REQUEST_UPDATE with
  | some entry, true => do
      let response ← update_pull_request env o entry none
      set_pull_request_groups response
      if truthy env.ASSIGNEES then
        add_assignees env o entry env.ASSIGNEES
      if truthy env.REVIEWERS || truthy env.TEAM_REVIEWERS then
        add_reviewers env o entry env.REVIEWERS env.TEAM_REVIEWERS
  | _, _ => do
      let response ← open_pull_request env o (draft_flag env.PULL_REQUEST_DRAFT)
      set_pull_request_groups response
      if truthy env.ASSIGNEES then
        add_assignees env o response.body env.ASSIGNEES
      if truthy env.REVIEWERS || truthy env.TEAM_REVIEWERS then
        add_reviewers env o response.body env.REVIEWERS env.TEAM_REVIEWERS

/-- A whole run of `main` from the empty observable state. -/
def main_run (env : Env) (o : Oracle) : Except String Unit × RunState :=
  main_reconcile env o { calls := [], exports := [] }

/-- The listing response `list_pull_requests` ends up inspecting: the
authenticated retry's on a 401/404 first answer, else the unauthenticated
one. -/
def effective_list (o : Oracle) : ListResp :=
  if [401, 404].contains o.list_no_auth.status then o.list_auth else o.list_no_auth

/-- The repository response `find_default_branch` ends up inspecting. -/
def effective_repo (o : Oracle) : RepoResp :=
  if [401, 404].contains o.repo_no_auth.status then o.repo_auth else o.repo_no_auth

/-- The same oracle with every pull-request listing emptied: a remote on
which the lookup finds no record at all. -/
def no_match_oracle (o : Oracle) : Oracle :=
  { o with
    list_no_auth := { o.list_no_auth with body := [] }
    list_auth := { o.list_auth with body := [] } }
/-! ### Run characterizations of the component operations

Each lemma computes a component's full effect: its result, the remote calls
made and the values exported, from an arbitrary starting state. -/

@[simp] theorem M.pure_eq {α : Type} : (Pure.pure : α → M α) = M.pure := rfl

@[simp] theorem M.pure_run {α : Type} (a : α) (s : RunState) :
    M.pure a s = (Except.ok a, s) := rfl

@[simp] theorem M.bind_eq {α β : Type} : (Bind.bind : M α → (α → M β) → M β) = M.bind := rfl

@[simp] theorem M.bind_run {α β : Type} (x : M α) (f : α → M β) (s : RunState) :
    M.bind x f s =
      match x s with
      | (Except.ok a, s1) => f a s1
      | (Except.error msg, s1) => (Except.error msg, s1) := rfl

theorem abort_if_fail_run (env : Env) (reason : String) (s : RunState) :
    abort_if_fail env reason s =
      ((if truthy env.PASS_ON_ERROR = true then Except.ok () else Except.error reason), s) := by
  unfold abort_if_fail
  split <;> rfl

theorem open_pull_request_run (env : Env) (o : Oracle) (d : Bool) (s : RunState) :
    open_pull_request env o d s =
      ((if o.create_resp.status = 201 ∨ truthy env.PASS_ON_ERROR = true
          then Except.ok o.create_resp
          else Except.error "Unable to create pull request"),
        { s with calls := s.calls ++ [Call.createPull d] }) := by
  unfold open_pull_request
  by_cases h : o.create_resp.status = 201 <;>
    by_cases hp : truthy env.PASS_ON_ERROR = true <;>
      simp [h, hp, remote_call, abort_if_fail, sys_exit]

theorem update_pull_request_run (env : Env) (o : Oracle) (entry : Entry)
    (state : Option String) (s : RunState) :
    update_pull_request env o entry state s =
      ((if o.update_resp.status = 200 ∨ truthy env.PASS_ON_ERROR = true
          then Except.ok o.update_resp
          else Except.error "Unable to update pull request"),
        { s with calls := s.calls ++ [Call.updatePull entry.number (pyOrStr state "open")] }) := by
  unfold update_pull_request
  by_cases h : o.update_resp.status = 200 <;>
    by_cases hp : truthy env.PASS_ON_ERROR = true <;>
      simp [h, hp, remote_call, abort_if_fail, sys_exit]

theorem set_pull_request_groups_run (r : Response) (s : RunState) :
    set_pull_request_groups r s =
      (Except.ok (),
        { s with exports := s.exports ++
            [("PULL_REQUEST_NUMBER", EVal.ofNum r.body.number),
             ("PULL_REQUEST_RETURN_CODE", EVal.num (pull_request_return_code r.status)),
             ("PULL_REQUEST_URL", EVal.ofStr r.body.htmlUrl)] }) := by
  unfold set_pull_request_groups
  simp [set_env_and_output]

theorem list_pull_requests_run (env : Env) (o : Oracle) (s : RunState) :
    list_pull_requests env o s =
      ((if (effective_list o).status = 200 ∨ truthy env.PASS_ON_ERROR = true
          then Except.ok (effective_list o).body
          else Except.error "Unable to retrieve information about pull requests"),
        { s with calls := s.calls ++
            (if [401, 404].contains o.list_no_auth.status
              then [Call.listPulls false, Call.listPulls true]
              else [Call.listPulls false]) }) := by
  unfold list_pull_requests
  by_cases hr : (o.list_no_auth.status = 401 ∨ o.list_no_auth.status = 404) <;>
    by_cases h1 : o.list_no_auth.status = 200 <;>
      by_cases h2 : o.list_auth.status = 200 <;>
        by_cases hp : truthy env.PASS_ON_ERROR = true <;>
          simp [hr, h1, h2, hp, effective_list, remote_call, abort_if_fail, sys_exit]

theorem find_default_branch_run (env : Env) (o : Oracle) (s : RunState) :
    find_default_branch env o s =
      ((if (effective_repo o).status = 200 ∨ truthy env.PASS_ON_ERROR = true
          then Except.ok (effective_repo o).default_branch
          else Except.error "Unable to retrieve default branch"),
        { s with calls := s.calls ++
            (if [401, 404].contains o.repo_no_auth.status
              then [Call.getRepo false, Call.getRepo true]
              else [Call.getRepo false]) }) := by
  unfold find_default_branch
  by_cases hr : (o.repo_no_auth.status = 401 ∨ o.repo_no_auth.status = 404) <;>
    by_cases h1 : o.repo_no_auth.status = 200 <;>
      by_cases h2 : o.repo_auth.status = 200 <;>
        by_cases hp : truthy env.PASS_ON_ERROR = true <;>
          simp [hr, h1, h2, hp, effective_repo, remote_call, abort_if_fail, sys_exit]

theorem add_assignees_run (env : Env) (o : Oracle) (entry : Entry)
    (assignees : Option String) (s : RunState) :
    add_assignees env o entry assignees s =
      ((if o.assignees_resp.status = 201 ∨ truthy env.PASS_ON_ERROR = true
          then Except.ok ()
          else Except.error "Unable to create assignees"),
        { s with
          calls := s.calls ++ [Call.addAssigneesCall entry.number (parse_into_list assignees)],
          exports := s.exports ++
            (if o.assignees_resp.status = 201 ∨ truthy env.PASS_ON_ERROR = true
              then [("ASSIGNEES_RETURN_CODE",
                EVal.num (if o.assignees_resp.status == 201 then 0 else o.assignees_resp.status))]
              else []) }) := by
  unfold add_assignees
  by_cases h : o.assignees_resp.status = 201 <;>
    by_cases hp : truthy env.PASS_ON_ERROR = true <;>
      simp [h, hp, remote_call, abort_if_fail, sys_exit, set_env_and_output]

theorem add_reviewers_run (env : Env) (o : Oracle) (entry : Entry)
    (reviewers team_reviewers : Option String) (s : RunState) :
    add_reviewers env o entry reviewers team_reviewers s =
      (if o.reviewers_resp.status = 201 ∨ truthy env.PASS_ON_ERROR = true then
        (if parse_into_list team_reviewers = [] then
          (Except.ok (),
            { s with calls := s.calls ++
                [Call.addReviewersCall entry.number (parse_into_list reviewers)] })
        else
          ((if o.team_reviewers_resp.status = 201 ∨ truthy env.PASS_ON_ERROR = true
              then Except.ok ()
              else Except.error "Unable to add team reviewers"),
            { s with calls := s.calls ++
                [Call.addReviewersCall entry.number (parse_into_list reviewers),
                 Call.addTeamReviewersCall entry.number (parse_into_list team_reviewers)] }))
      else
        (Except.error "Unable to add reviewers",
          { s with calls := s.calls ++
              [Call.addReviewersCall entry.number (parse_into_list reviewers)] })) := by
  unfold add_reviewers
  by_cases h1 : o.reviewers_resp.status = 201 <;>
    by_cases hp : truthy env.PASS_ON_ERROR = true <;>
      by_cases ht : parse_into_list team_reviewers = [] <;>
        by_cases h2 : o.team_reviewers_resp.status = 201 <;>
          simp [h1, hp, ht, h2, remote_call, abort_if_fail, sys_exit]

/-! ### Claims -/

/-- C2: `find_pull_request` returns the first entry of the candidate list
whose head ref equals the source branch exactly (case-sensitively): any
returned entry has head ref equal to the source and splits the list with no
earlier match, and the result is `none` exactly when no entry's head ref
equals the source. -/
theorem find_pull_request_first_match (L : List Entry) (S : String) :
    (∀ e : Entry, find_pull_request L S = some e →
      e.headRef = S ∧ ∃ l1 l2, L = l1 ++ e :: l2 ∧ ∀ x ∈ l1, x.headRef ≠ S)
    ∧ (find_pull_request L S = none ↔ ∀ x ∈ L, x.headRef ≠ S) := by
  constructor
  · intro e he
    unfold find_pull_request at he
    rw [List.find?_eq_some] at he
    obtain ⟨hpe, l1, l2, hL, hearlier⟩ := he
    refine ⟨by simpa using hpe, l1, l2, hL, ?_⟩
    intro x hx
    have := hearlier x hx
    simpa using this
  · unfold find_pull_request
    rw [List.find?_eq_none]
    constructor
    · intro hn x hx
      simpa using hn x hx
    · intro hn x hx
      simpa using hn x hx

/-- Witness for C2: on a concrete two-entry listing the match is the second
entry, decomposed after a non-matching first entry. -/
theorem find_pull_request_first_match_witness :
    (Entry.mk (some 2) "main" none).headRef = "main" ∧
      ∃ l1 l2,
        [Entry.mk (some 1) "dev" none, Entry.mk (some 2) "main" none] =
          l1 ++ Entry.mk (some 2) "main" none :: l2 ∧
        ∀ x ∈ l1, x.headRef ≠ "main" :=
  (find_pull_request_first_match
      [Entry.mk (some 1) "dev" none, Entry.mk (some 2) "main" none] "main").1
    (Entry.mk (some 2) "main" none) (by decide)

/-- C8 counterexample: `parse_into_list` is not "strip quotes then split on
whitespace".  On `"a  b"` the code's single-space split keeps the empty
piece between the two adjacent spaces, while whitespace-token splitting (as
the spec words it, modelled by `parse_list_spec`) does not. -/
theorem parse_into_list_counterexample :
    parse_into_list (some "a  b") = ["a", "", "b"] ∧
    parse_list_spec (some "a  b") = ["a", "b"] ∧
    parse_into_list (some "a  b") ≠ parse_list_spec (some "a  b") := by
  refine ⟨by decide, by decide, by decide⟩

/-- C8 amended: empty or absent input yields `[]` (not an error) and
`'"a" "b"'` yields `["a", "b"]`; in general the result is obtained by
stripping quote characters and splitting on every single **space**
character (adjacent separators keeping an empty piece, each piece stripped
of surrounding whitespace) — not by whitespace-token splitting. -/
theorem parse_into_list_amended :
    parse_into_list none = [] ∧
    parse_into_list (some "") = [] ∧
    parse_into_list (some "\x22a\x22 \x22b\x22") = ["a", "b"] ∧
    parse_into_list (some "a  b") = ["a", "", "b"] ∧
    (∀ s : String, s ≠ "" →
      parse_into_list (some s) =
        (if (strip_quotes s).isEmpty then []
         else (split_on_pred (fun c => c == ' ') (strip_quotes s).data).map
           (fun x => String.mk (py_strip x)))) := by
  refine ⟨rfl, rfl, by decide, by decide, ?_⟩
  intro s hs
  have he : s.isEmpty = false := by
    by_cases h : s.isEmpty = true
    · exact absurd ((String.isEmpty_iff s).mp h) hs
    · simpa using h
  unfold parse_into_list
  simp [he]

/-- Witness for C8 amended, at the concrete input `"a b"`. -/
theorem parse_into_list_amended_witness :
    parse_into_list (some "a b") =
      (if (strip_quotes "a b").isEmpty then []
       else (split_on_pred (fun c => c == ' ') (strip_quotes "a b").data).map
         (fun x => String.mk (py_strip x))) :=
  parse_into_list_amended.2.2.2.2 "a b" (by decide)

/-- C9: a required environment variable set to the empty string is treated
exactly like an absent one (`get_envar` fails the same way on both), and
every value `get_envar` returns is a non-empty string. -/
theorem get_envar_nonempty (n : String) (v : Option String) (s : String)
    (h : get_envar n v = Except.ok s) :
    get_envar n (some "") = get_envar n none ∧ s ≠ "" := by
  refine ⟨rfl, ?_⟩
  intro hs
  subst hs
  cases v with
  | none => simp [get_envar] at h
  | some w =>
      by_cases hw : w.isEmpty = true
      · simp [get_envar, hw] at h
      · have hw0 : w = "" := by simpa [get_envar, hw] using h
        rw [hw0] at hw
        exact hw rfl

/-- Witness for C9 at a concrete set, non-empty variable. -/
theorem get_envar_nonempty_witness :
    get_envar "GITHUB_TOKEN" (some "") = get_envar "GITHUB_TOKEN" none ∧ "tok" ≠ "" :=
  get_envar_nonempty "GITHUB_TOKEN" (some "tok") "tok" rfl

/-- C10: the draft flag (line 289) is true exactly when the lowercased
`PULL_REQUEST_DRAFT` value is `"true"`, `"1"` or `"yes"` — variants with
surrounding whitespace yield false — while the update flag (the truthiness
test `main` applies to `PULL_REQUEST_UPDATE` at line 314) accepts every
non-empty value whatever its content. -/
theorem draft_and_update_flags :
    (∀ v : Option String,
      draft_flag v = true ↔
        (py_lower (v.getD "") = "true" ∨ py_lower (v.getD "") = "1" ∨
          py_lower (v.getD "") = "yes"))
    ∧ draft_flag (some " true") = false
    ∧ draft_flag (some "true ") = false
    ∧ draft_flag (some "TRUE") = true
    ∧ draft_flag (some "no") = false
    ∧ truthy none = false
    ∧ truthy (some "") = false
    ∧ (∀ s : String, s ≠ "" → truthy (some s) = true) := by
  refine ⟨?_, by decide, by decide, by decide, by decide, rfl, rfl, ?_⟩
  · intro v
    unfold draft_flag
    simp
  · intro s hs
    unfold truthy
    by_cases h : s.isEmpty = true
    · exact absurd ((String.isEmpty_iff s).mp h) hs
    · simp [h]

/-- Witness for C10 at a concrete non-empty update value. -/
theorem draft_and_update_flags_witness : truthy (some "please") = true :=
  draft_and_update_flags.2.2.2.2.2.2.2 "please" (by decide)

/-- C5: `set_pull_request_groups` exports the number, return code and URL
in that order; the return code is 0 iff the status is the creation-success
status 201 and otherwise is the raw status (so an update success of 200
exports 200); number and url come from the response body and are null when
the body lacks them (as on a tolerated failure). -/
theorem set_pull_request_groups_export (r : Response) (s : RunState)
    (h : 100 ≤ r.status) :
    (set_pull_request_groups r s).2.exports =
      s.exports ++
        [("PULL_REQUEST_NUMBER", EVal.ofNum r.body.number),
         ("PULL_REQUEST_RETURN_CODE", EVal.num (pull_request_return_code r.status)),
         ("PULL_REQUEST_URL", EVal.ofStr r.body.htmlUrl)]
    ∧ (pull_request_return_code r.status = 0 ↔ r.status = 201)
    ∧ (r.status ≠ 201 → pull_request_return_code r.status = r.status)
    ∧ (r.body.number = none → EVal.ofNum r.body.number = EVal.null)
    ∧ (r.body.htmlUrl = none → EVal.ofStr r.body.htmlUrl = EVal.null) := by
  refine ⟨by simp [set_pull_request_groups_run], ?_, ?_, ?_, ?_⟩
  · unfold pull_request_return_code
    by_cases h2 : r.status = 201
    · simp [h2]
    · simp [h2]
      omega
  · intro h2
    simp [pull_request_return_code, h2]
  · intro h2
    simp [h2, EVal.ofNum]
  · intro h2
    simp [h2, EVal.ofStr]

/-- Witness for C5 at a concrete update-success response (status 200,
number 7, url present). -/
theorem set_pull_request_groups_export_witness :
    (set_pull_request_groups (Response.mk 200 (Entry.mk (some 7) "b" (some "u")))
        (RunState.mk [] [])).2.exports =
      [] ++
        [("PULL_REQUEST_NUMBER", EVal.ofNum (Entry.mk (some 7) "b" (some "u")).number),
         ("PULL_REQUEST_RETURN_CODE",
           EVal.num (pull_request_return_code (200 : Nat))),
         ("PULL_REQUEST_URL", EVal.ofStr (Entry.mk (some 7) "b" (some "u")).htmlUrl)]
    ∧ (pull_request_return_code (200 : Nat) = 0 ↔ (200 : Nat) = 201)
    ∧ ((200 : Nat) ≠ 201 → pull_request_return_code (200 : Nat) = (200 : Nat))
    ∧ ((Entry.mk (some 7) "b" (some "u")).number = none →
        EVal.ofNum (Entry.mk (some 7) "b" (some "u")).number = EVal.null)
    ∧ ((Entry.mk (some 7) "b" (some "u")).htmlUrl = none →
        EVal.ofStr (Entry.mk (some 7) "b" (some "u")).htmlUrl = EVal.null) :=
  set_pull_request_groups_export (Response.mk 200 (Entry.mk (some 7) "b" (some "u")))
    (RunState.mk [] []) (by decide)

/-- C4: both the pull-request lookup and the default-branch resolution send
their first query without credentials; a 401/404 first answer triggers
exactly one authenticated retry and nothing else ever does (the call trace
is exactly one or two lookups); the run continues past the function exactly
when the final answer is 200 or override mode is set. -/
theorem auth_upgrade_retry (env : Env) (o : Oracle) (s : RunState) :
    ((list_pull_requests env o s).2.calls =
        s.calls ++ (if [401, 404].contains o.list_no_auth.status
          then [Call.listPulls false, Call.listPulls true]
          else [Call.listPulls false]))
    ∧ ((∃ a, (list_pull_requests env o s).1 = Except.ok a) ↔
        ((effective_list o).status = 200 ∨ truthy env.PASS_ON_ERROR = true))
    ∧ ((find_default_branch env o s).2.calls =
        s.calls ++ (if [401, 404].contains o.repo_no_auth.status
          then [Call.getRepo false, Call.getRepo true]
          else [Call.getRepo false]))
    ∧ ((∃ a, (find_default_branch env o s).1 = Except.ok a) ↔
        ((effective_repo o).status = 200 ∨ truthy env.PASS_ON_ERROR = true)) := by
  refine ⟨by simp [list_pull_requests_run], ?_, by simp [find_default_branch_run], ?_⟩
  · by_cases hc : ((effective_list o).status = 200 ∨ truthy env.PASS_ON_ERROR = true) <;>
      simp [list_pull_requests_run, hc]
  · by_cases hc : ((effective_repo o).status = 200 ∨ truthy env.PASS_ON_ERROR = true) <;>
      simp [find_default_branch_run, hc]

/-- C7 counterexample: with override unset, a failing reviewer call
(status 500) exits before the team-reviewer call, so a non-empty parsed
team list gets no second call — the claim's unconditional "iff" fails. -/
theorem add_reviewers_counterexample :
    parse_into_list (some "\x22t\x22") = ["t"] ∧
    add_reviewers (Env.mk none none none none none (some "\x22t\x22") "src")
        (Oracle.mk (ListResp.mk 200 []) (ListResp.mk 200 [])
          (Response.mk 201 (Entry.mk none "" none))
          (Response.mk 200 (Entry.mk none "" none))
          (Response.mk 201 (Entry.mk none "" none))
          (Response.mk 500 (Entry.mk none "" none))
          (Response.mk 201 (Entry.mk none "" none))
          (RepoResp.mk 200 "main") (RepoResp.mk 200 "main"))
        (Entry.mk (some 7) "src" none) none (some "\x22t\x22")
        (RunState.mk [] []) =
      (Except.error "Unable to add reviewers",
        RunState.mk [Call.addReviewersCall (some 7) []] []) := by
  refine ⟨by decide, rfl⟩

/-- C7 amended: whenever reviewer attachment runs, exactly one remote call
with the (possibly empty) parsed reviewer list is always issued first — in
particular an empty reviewer list with non-empty team reviewers still
issues it — and a second call for team reviewers is issued iff the parsed
team list is non-empty AND the first call did not exit the run (its status
was 201 or override mode was set). -/
theorem add_reviewers_calls (env : Env) (o : Oracle) (entry : Entry)
    (reviewers team_reviewers : Option String) (s : RunState) :
    (add_reviewers env o entry reviewers team_reviewers s).2.calls =
      s.calls ++ [Call.addReviewersCall entry.number (parse_into_list reviewers)] ++
        (if parse_into_list team_reviewers ≠ [] ∧
            (o.reviewers_resp.status = 201 ∨ truthy env.PASS_ON_ERROR = true)
          then [Call.addTeamReviewersCall entry.number (parse_into_list team_reviewers)]
          else []) := by
  by_cases h1 : (o.reviewers_resp.status = 201 ∨ truthy env.PASS_ON_ERROR = true) <;>
    by_cases ht : parse_into_list team_reviewers = [] <;>
      simp [add_reviewers_run, h1, ht]

/-- Emptying the listing bodies keeps the effective status and empties the
effective body. -/
theorem effective_list_no_match (o : Oracle) :
    effective_list (no_match_oracle o) = ListResp.mk (effective_list o).status [] := by
  unfold effective_list no_match_oracle
  by_cases h : (o.list_no_auth.status = 401 ∨ o.list_no_auth.status = 404) <;> simp [h]

/-- C1: when the lookup succeeds, a record matches the source branch and
the update flag is not set, the run still issues the Create call, and the
whole run (calls, exports, outcome) is exactly the run against a remote
whose lookup returns no record at all. -/
theorem create_despite_match (env : Env) (o : Oracle) (e : Entry)
    (hupd : truthy env.PULL_REQUEST_UPDATE = false)
    (hmatch : find_pull_request (effective_list o).body env.PULL_REQUEST_SOURCE = some e)
    (hok : (effective_list o).status = 200) :
    Call.createPull (draft_flag env.PULL_REQUEST_DRAFT) ∈ (main_run env o).2.calls
    ∧ main_run env o = main_run env (no_match_oracle o) := by
  constructor
  · unfold main_run main_reconcile
    simp only [M.bind_eq, M.bind_run, list_pull_requests_run, hok, hmatch, hupd, true_or,
      if_true]
    by_cases hc : (o.create_resp.status = 201 ∨ truthy env.PASS_ON_ERROR = true) <;>
      by_cases hA : truthy env.ASSIGNEES = true <;>
        by_cases hAs : (o.assignees_resp.status = 201 ∨ truthy env.PASS_ON_ERROR = true) <;>
          by_cases hR : (truthy env.REVIEWERS || truthy env.TEAM_REVIEWERS) = true <;>
            by_cases ht : parse_into_list env.TEAM_REVIEWERS = [] <;>
              by_cases hRs : (o.reviewers_resp.status = 201 ∨ truthy env.PASS_ON_ERROR = true) <;>
                simp [hc, hA, hAs, hR, ht, hRs, open_pull_request_run,
                  set_pull_request_groups_run, add_assignees_run, add_reviewers_run]
  · unfold main_run main_reconcile
    simp only [M.bind_eq, M.bind_run, list_pull_requests_run, effective_list_no_match]
    by_cases hs : ((effective_list o).status = 200 ∨ truthy env.PASS_ON_ERROR = true)
    · simp only [hs, if_true]
      cases hfind : find_pull_request (effective_list o).body env.PULL_REQUEST_SOURCE <;>
        by_cases hc : (o.create_resp.status = 201 ∨ truthy env.PASS_ON_ERROR = true) <;>
          by_cases hA : truthy env.ASSIGNEES = true <;>
            by_cases hAs : (o.assignees_resp.status = 201 ∨ truthy env.PASS_ON_ERROR = true) <;>
              by_cases hR : (truthy env.REVIEWERS || truthy env.TEAM_REVIEWERS) = true <;>
                by_cases ht : parse_into_list env.TEAM_REVIEWERS = [] <;>
                  by_cases hRs : (o.reviewers_resp.status = 201 ∨ truthy env.PASS_ON_ERROR = true) <;>
                    simp [hfind, hupd, hc, hA, hAs, hR, ht, hRs, find_pull_request,
                      no_match_oracle, open_pull_request_run, set_pull_request_groups_run,
                      add_assignees_run, add_reviewers_run]
    · simp [hs, no_match_oracle]

/-- Concrete environment for the C1 witness: update flag unset. -/
def env_c1 : Env := Env.mk none none none none none none "src"

/-- Concrete oracle for the C1 witness: the lookup succeeds and returns one
record matching the source branch. -/
def oracle_c1 : Oracle :=
  Oracle.mk (ListResp.mk 200 [Entry.mk (some 5) "src" (some "u")]) (ListResp.mk 200 [])
    (Response.mk 201 (Entry.mk (some 9) "src" (some "cu")))
    (Response.mk 200 (Entry.mk none "" none))
    (Response.mk 201 (Entry.mk none "" none))
    (Response.mk 201 (Entry.mk none "" none))
    (Response.mk 201 (Entry.mk none "" none))
    (RepoResp.mk 200 "main") (RepoResp.mk 200 "main")

/-- Witness for C1 at a concrete run with a matching record and the update
flag unset. -/
theorem create_despite_match_witness :
    Call.createPull (draft_flag env_c1.PULL_REQUEST_DRAFT) ∈ (main_run env_c1 oracle_c1).2.calls
    ∧ main_run env_c1 oracle_c1 = main_run env_c1 (no_match_oracle oracle_c1) :=
  create_despite_match env_c1 oracle_c1 (Entry.mk (some 5) "src" (some "u"))
    rfl (by decide) (by decide)

/-- C3 amended: when the create call fails (non-201) with override mode
set, the run continues to a normal end, the exported return code is the raw
status, and assignee/reviewer attachment is still attempted against the
(possibly absent) record — the attachment call is issued even when the body
carries no record id (with an absent number), it is not skipped. -/
theorem tolerated_create_failure (env : Env) (o : Oracle)
    (hpass : truthy env.PASS_ON_ERROR = true)
    (hfail : o.create_resp.status ≠ 201)
    (hok : (effective_list o).status = 200)
    (hnoupd : truthy env.PULL_REQUEST_UPDATE = false) :
    (main_run env o).1 = Except.ok ()
    ∧ ("PULL_REQUEST_RETURN_CODE", EVal.num o.create_resp.status) ∈ (main_run env o).2.exports
    ∧ (truthy env.ASSIGNEES = true →
        Call.addAssigneesCall o.create_resp.body.number (parse_into_list env.ASSIGNEES)
          ∈ (main_run env o).2.calls)
    ∧ ((truthy env.REVIEWERS || truthy env.TEAM_REVIEWERS) = true →
        Call.addReviewersCall o.create_resp.body.number (parse_into_list env.REVIEWERS)
          ∈ (main_run env o).2.calls) := by
  have hrc : pull_request_return_code o.create_resp.status = o.create_resp.status := by
    simp [pull_request_return_code, hfail]
  unfold main_run main_reconcile
  simp only [M.bind_eq, M.bind_run, list_pull_requests_run, hok, true_or, if_true]
  cases hfind : find_pull_request (effective_list o).body env.PULL_REQUEST_SOURCE <;>
    by_cases hA : truthy env.ASSIGNEES = true <;>
      by_cases hR : (truthy env.REVIEWERS || truthy env.TEAM_REVIEWERS) = true <;>
        by_cases ht : parse_into_list env.TEAM_REVIEWERS = [] <;>
          simp [hfind, hnoupd, hpass, hA, hR, ht, hrc, open_pull_request_run,
            set_pull_request_groups_run, add_assignees_run, add_reviewers_run]

/-- Concrete environment for C3: override mode set, assignees requested. -/
def env_c3 : Env := Env.mk (some "1") none none (some "\x22u\x22") none none "src"

/-- Concrete oracle for C3: create fails with 422 and an error body that
has no record id. -/
def oracle_c3 : Oracle :=
  Oracle.mk (ListResp.mk 200 []) (ListResp.mk 200 [])
    (Response.mk 422 (Entry.mk none "" none))
    (Response.mk 200 (Entry.mk none "" none))
    (Response.mk 201 (Entry.mk none "" none))
    (Response.mk 201 (Entry.mk none "" none))
    (Response.mk 201 (Entry.mk none "" none))
    (RepoResp.mk 200 "main") (RepoResp.mk 200 "main")

/-- C3 counterexample to the "no-op" clause: on a tolerated 422 create
whose body has no record id, assignee attachment is NOT a no-op — the run
still issues the remote assignees call, with an absent record number in
its address. -/
theorem tolerated_create_failure_counterexample :
    (main_run env_c3 oracle_c3).2.calls =
      [Call.listPulls false, Call.createPull false, Call.addAssigneesCall none ["u"]]
    ∧ oracle_c3.create_resp.body.number = none := by
  refine ⟨by decide, rfl⟩

/-- Witness for C3 amended at the concrete tolerated-422 run. -/
theorem tolerated_create_failure_witness :
    (main_run env_c3 oracle_c3).1 = Except.ok ()
    ∧ ("PULL_REQUEST_RETURN_CODE", EVal.num oracle_c3.create_resp.status)
        ∈ (main_run env_c3 oracle_c3).2.exports
    ∧ (truthy env_c3.ASSIGNEES = true →
        Call.addAssigneesCall oracle_c3.create_resp.body.number (parse_into_list env_c3.ASSIGNEES)
          ∈ (main_run env_c3 oracle_c3).2.calls)
    ∧ ((truthy env_c3.REVIEWERS || truthy env_c3.TEAM_REVIEWERS) = true →
        Call.addReviewersCall oracle_c3.create_resp.body.number (parse_into_list env_c3.REVIEWERS)
          ∈ (main_run env_c3 oracle_c3).2.calls) :=
  tolerated_create_failure env_c3 oracle_c3 rfl (by decide) (by decide) rfl

/-- C6: with a match found and the update flag set, the run issues the
Update call with state defaulted to "open", never issues a Create call (in
particular not when the update fails under override mode), and — when the
update succeeds or is tolerated — exports the results and attaches
assignees and (when the assignees step did not exit the run) reviewers to
the *matched* record. -/
theorem update_path_never_creates (env : Env) (o : Oracle) (e : Entry)
    (hok : (effective_list o).status = 200)
    (hmatch : find_pull_request (effective_list o).body env.PULL_REQUEST_SOURCE = some e)
    (hupd : truthy env.PULL_REQUEST_UPDATE = true) :
    Call.updatePull e.number "open" ∈ (main_run env o).2.calls
    ∧ (∀ d : Bool, Call.createPull d ∉ (main_run env o).2.calls)
    ∧ (o.update_resp.status = 200 ∨ truthy env.PASS_ON_ERROR = true →
        ("PULL_REQUEST_RETURN_CODE", EVal.num (pull_request_return_code o.update_resp.status))
            ∈ (main_run env o).2.exports
        ∧ (truthy env.ASSIGNEES = true →
            Call.addAssigneesCall e.number (parse_into_list env.ASSIGNEES)
              ∈ (main_run env o).2.calls)
        ∧ ((truthy env.REVIEWERS || truthy env.TEAM_REVIEWERS) = true →
            (truthy env.ASSIGNEES = true →
              o.assignees_resp.status = 201 ∨ truthy env.PASS_ON_ERROR = true) →
            Call.addReviewersCall e.number (parse_into_list env.REVIEWERS)
              ∈ (main_run env o).2.calls)) := by
  unfold main_run main_reconcile
  simp only [M.bind_eq, M.bind_run, list_pull_requests_run, hok, true_or, if_true, hmatch, hupd]
  by_cases hl : (o.list_no_auth.status = 401 ∨ o.list_no_auth.status = 404) <;>
    by_cases hu : (o.update_resp.status = 200 ∨ truthy env.PASS_ON_ERROR = true) <;>
      by_cases hA : truthy env.ASSIGNEES = true <;>
        by_cases hAs : (o.assignees_resp.status = 201 ∨ truthy env.PASS_ON_ERROR = true) <;>
          by_cases hR : (truthy env.REVIEWERS || truthy env.TEAM_REVIEWERS) = true <;>
            by_cases ht : parse_into_list env.TEAM_REVIEWERS = [] <;>
              by_cases hRs : (o.reviewers_resp.status = 201 ∨ truthy env.PASS_ON_ERROR = true) <;>
                simp [hl, hu, hA, hAs, hR, ht, hRs, update_pull_request_run,
                  set_pull_request_groups_run, add_assignees_run, add_reviewers_run, pyOrStr]

/-- Concrete environment for C6: update flag set, assignees and reviewers
requested. -/
def env_c6 : Env :=
  Env.mk none none (some "1") (some "\x22u\x22") (some "\x22r\x22") none "src"

/-- Concrete oracle for C6: the lookup returns a matching record and the
update succeeds. -/
def oracle_c6 : Oracle :=
  Oracle.mk (ListResp.mk 200 [Entry.mk (some 5) "src" none]) (ListResp.mk 200 [])
    (Response.mk 201 (Entry.mk (some 9) "src" none))
    (Response.mk 200 (Entry.mk (some 5) "src" (some "uu")))
    (Response.mk 201 (Entry.mk none "" none))
    (Response.mk 201 (Entry.mk none "" none))
    (Response.mk 201 (Entry.mk none "" none))
    (RepoResp.mk 200 "main") (RepoResp.mk 200 "main")

/-- Witness for C6 at a concrete matched run in update mode. -/
theorem update_path_never_creates_witness :
    Call.updatePull (some 5) "open" ∈ (main_run env_c6 oracle_c6).2.calls
    ∧ Call.createPull false ∉ (main_run env_c6 oracle_c6).2.calls := by
  have h := update_path_never_creates env_c6 oracle_c6 (Entry.mk (some 5) "src" none)
    (by decide) (by decide) rfl
  exact ⟨h.1, h.2.1 false⟩
